import Mathlib

/-!
Verification of the message classification and sanitization pipeline of
`src/frontend/web/core/message_processor.py` (class `MessageProcessor`).

Python strings that may be `None` are modelled as `Option String` (`Py`);
a dictionary field is `Option Py` (`Option.none` = key absent, `some v` =
key present with value `v`).  Code that can raise returns `Except String`.
The collaborators imported from modules outside this repository excerpt
(`AgentManager`, `parse_tool_name`, `extract_tool_calls`), together with
the builtin `hash` and the wall clock, are passed in as parameters.
-/

set_option maxRecDepth 40000
set_option maxHeartbeats 2000000

/-- A Python string-or-None value: `Option.none` models Python `None`. -/
abbrev Py : Type := Option String

/-- A dictionary field: `Option.none` when the key is absent, `some v`
when the key is present with the string-or-None value `v`. -/
abbrev PyField : Type := Option Py

/-- Python `event.get(key, default)`. -/
def pyGet (f : PyField) (default : Py) : Py := f.getD default

/-- Python truthiness of a string-or-None value (`None` and `""` are falsy). -/
def pyTruthy : Py → Bool
  | Option.none => false
  | some s => !(s.data.isEmpty)

/-- Python `x or d` for a string-or-None `x` and a string default `d`. -/
def pyOr (x : Py) (d : String) : String :=
  match x with
  | Option.none => d
  | some s => if s.data.isEmpty then d else s

/-- Python `str()` rendering as used by f-string interpolation. -/
def pyStr : Py → String
  | Option.none => "None"
  | some s => s

/-- Python `str.lower()` (ASCII case folding, which covers every string the
source manipulates). -/
def pyLower (s : String) : String := String.mk (s.data.map Char.toLower)

/-- The characters removed by Python `str.strip()` with no argument. -/
def pyIsSpace (c : Char) : Bool :=
  c == ' ' || c == '\t' || c == '\n' || c == '\r' || c == '\x0b' || c == '\x0c'

/-- Python `str.strip()`: drop leading and trailing whitespace. -/
def pyStrip (s : String) : String :=
  String.mk (((s.data.dropWhile pyIsSpace).reverse.dropWhile pyIsSpace).reverse)

/-- Replace the character `a` by `b`, leaving other characters unchanged. -/
def replaceChar (a b : Char) (c : Char) : Char := if c == a then b else c

/-- Python `s.replace(a, b)` for one-character `a` and `b` (the only form the
source uses). -/
def pyReplaceChar (s : String) (a b : Char) : String :=
  String.mk (s.data.map (replaceChar a b))

/-- Occurrence test for one character list inside another. -/
def infixCheck (needle hay : List Char) : Bool :=
  needle.isPrefixOf hay ||
  match hay with
  | [] => false
  | _ :: t => infixCheck needle t

/-- Python `needle in hay` substring containment. -/
def pyIn (needle hay : String) : Bool := infixCheck needle.data hay.data

/-- Python `s[:n]` slicing (by code point, as in Python). -/
def pyTake (s : String) (n : Nat) : String := String.mk (s.data.take n)

/-- An input event from the CLI workflow engine (`event_data` dictionary). -/
structure Event where
  type : PyField := Option.none
  message_type : PyField := Option.none
  agent_name : PyField := Option.none
  content : PyField := Option.none
  raw_message : PyField := Option.none
  tool_name : PyField := Option.none
  tool_display_name : PyField := Option.none
deriving DecidableEq, Repr

/-- An output message dictionary produced by `MessageProcessor`. -/
structure Message where
  type : PyField := Option.none
  agent_id : PyField := Option.none
  display_name : PyField := Option.none
  avatar : PyField := Option.none
  content : PyField := Option.none
  id : PyField := Option.none
  tool_name : PyField := Option.none
  tool_display_name : PyField := Option.none
  tool_calls : Option (List String) := Option.none
deriving DecidableEq, Repr

/-- Modelled from the spec: the collaborators that `message_processor.py`
imports from modules missing from this repository excerpt —
`AgentManager.get_display_name` and `AgentManager.get_avatar` from
`src/utils/agents`, and `parse_tool_name` and `extract_tool_calls` from
`src/utils/message` — plus the Python builtin `hash`.  Per the spec these
lookups are total (a static role table where "unknown roles get a generic
default name/avatar, never an error", and a tool-name transform);
`extract_tool_calls` is an opaque extraction from the raw message and the
event; `pyHash` is an arbitrary integer-valued hash.  The wall-clock
timestamp read by `datetime.now().timestamp()` is passed to
`process_cli_event` separately. -/
structure Externals where
  get_display_name : Py → String
  get_avatar : Py → String
  parse_tool_name : Py → String
  extract_tool_calls : PyField → Event → List String
  pyHash : Py → Int

/-- Lines 90-92: `_is_initial_access_agent`. -/
def is_initial_access_agent (agent_name : Py) : Bool :=
  let val := pyLower (pyStrip (pyOr agent_name ""))
  (val == "initial_access" || val == "initial_access_agent" || val == "initial_access\n")
    || pyIn "initial_access" val
    || pyIn "initial_access" (pyReplaceChar val ' ' '_')
    || pyIn "initial_access" (pyReplaceChar val '-' '_')
    || pyIn "initial_access" (pyReplaceChar val '.' '_')
    || pyIn "initial_access" (pyReplaceChar val '/' '_')
    || pyIn "initial_access" val

/-- Lines 94-96: `_is_summary_agent`. -/
def is_summary_agent (agent_name : Py) : Bool :=
  let val := pyLower (pyStrip (pyOr agent_name ""))
  val == "summary" || pyIn "summary" val

/-- Line 102: the required heading of the initial-access gate. -/
def initial_access_required_heading : String := "initial access assessment (simulated)"

/-- Lines 103-117: the banned-term list of the initial-access gate. -/
def initial_access_banned_terms : List String :=
  ["cve", "exploit", "backdoor", "rce", "shell", "root", "metasploit",
   "eternalblue", "brute-force", "bruteforce", "command", "payload", "port-by-port"]

/-- Lines 128-150: `_initial_access_safe_template`. -/
def initial_access_safe_template : String :=
  "Initial Access Assessment (Simulated)\n\n" ++
  "Selected Entry Vector:\n" ++
  "Legacy file transfer service exposed to the network\n\n" ++
  "Reason for Selection:\n" ++
  "The reconnaissance phase identified an outdated externally accessible service. " ++
  "From a risk perspective, legacy services often present higher exposure due to age, reduced maintenance, " ++
  "and historically weaker security controls, making them a common initial access candidate in controlled environments.\n\n" ++
  "Required Preconditions:\n" ++
  "- Network connectivity to the target system\n" ++
  "- Service accessible without restrictive access controls\n\n" ++
  "Expected Outcome (Simulated):\n" ++
  "Potential initial foothold with limited privileges, enabling further impact assessment.\n\n" ++
  "Risk Level:\n" ++
  "Critical\n\n" ++
  "Confidence Level:\n" ++
  "High\n\n" ++
  "Potential Next Steps (Theoretical):\n" ++
  "- Privilege escalation risk evaluation\n" ++
  "- Lateral movement exposure assessment\n" ++
  "- Persistence and detection impact review"

/-- Lines 98-126: `_sanitize_initial_access_output`. -/
def sanitize_initial_access_output (content : Py) : String :=
  let text := pyOr content ""
  let lowered := pyLower text
  if !(pyIn initial_access_required_heading lowered) then initial_access_safe_template
  else if initial_access_banned_terms.any (fun term => pyIn term lowered) then
    initial_access_safe_template
  else text

/-- Line 156: the required heading of the summary gate. -/
def summary_required_heading : String := "engagement summary (public demo safe)"

/-- Lines 157-173: the banned-term list of the summary gate. -/
def summary_banned_terms : List String :=
  ["cve", "exploit", "backdoor", "metasploit", "msfconsole", "payload",
   "reverse shell", "netcat", "hydra", "sqlmap", "command", "rce",
   "remote command execution", "shell", "```"]

/-- Lines 184-206: `_summary_safe_template`. -/
def summary_safe_template : String :=
  "Engagement Summary (Public Demo Safe)\n\n" ++
  "Executive Overview:\n" ++
  "The assessment identified externally exposed services with indicators of outdated configurations and insufficient access controls. " ++
  "These conditions increase the likelihood of unauthorized access attempts and elevate overall risk.\n\n" ++
  "Key Observations:\n" ++
  "- Multiple network-exposed services were identified that warrant hardening and access review\n" ++
  "- Service configuration and version hygiene appear inconsistent\n" ++
  "- Preventive controls (segmentation, allowlisting, and monitoring) should be strengthened\n\n" ++
  "Primary Risks:\n" ++
  "- Unauthorized access via exposed services (Impact: High, Likelihood: Medium)\n" ++
  "- Credential exposure or weak authentication controls (Impact: High, Likelihood: Medium)\n\n" ++
  "Recommended Mitigations (Non-Operational):\n" ++
  "- Reduce external exposure to only required services and enforce strict access policies\n" ++
  "- Standardize patching/version management and configuration baselines\n" ++
  "- Strengthen authentication, logging, and monitoring for externally reachable systems\n\n" ++
  "Scope & Limitations:\n" ++
  "- Findings are based on observed service exposure and provided reconnaissance artifacts\n" ++
  "- This summary intentionally omits operational detail to remain public-demo safe\n\n" ++
  "Next Phase Recommendation:\n" ++
  "Proceed with prioritized remediation validation and security control review to reduce exposure and confirm risk reduction."

/-- Lines 152-182: `_sanitize_summary_output`. -/
def sanitize_summary_output (content : Py) : String :=
  let text := pyOr content ""
  let lowered := pyLower text
  if !(pyIn summary_required_heading lowered) then summary_safe_template
  else if summary_banned_terms.any (fun term => pyIn term lowered) then
    summary_safe_template
  else text

/-- The three agent roles that the `if/elif` dispatch on lines 69-72
distinguishes. -/
inductive AgentRole where
  | initial_access_role
  | summary_role
  | other_role
deriving DecidableEq, Repr

/-- The role dispatch of `_create_ai_message` (lines 69-72): the
initial-access test runs first, the summary test only in its `elif`. -/
def classify_role (agent_name : Py) : AgentRole :=
  if is_initial_access_agent agent_name then AgentRole.initial_access_role
  else if is_summary_agent agent_name then AgentRole.summary_role
  else AgentRole.other_role

/-- Lines 59-88: `_create_ai_message`.  Sanitization happens before the
dictionary is built; building the dictionary evaluates `agent_name.lower()`
(raises `AttributeError` when `agent_name` is `None`) and
`hash(content[:100])` (raises `TypeError` when the, possibly sanitized,
content is `None`). -/
def create_ai_message (ext : Externals) (ts : Nat) (agent_name : Py)
    (display_name avatar : String) (content : Py) (event_data : Event) :
    Except String Message :=
  let content2 : Py :=
    match classify_role agent_name with
    | AgentRole.initial_access_role => some (sanitize_initial_access_output content)
    | AgentRole.summary_role => some (sanitize_summary_output content)
    | AgentRole.other_role => content
  match agent_name with
  | Option.none => Except.error "AttributeError: NoneType object has no attribute lower"
  | some a =>
    match content2 with
    | Option.none => Except.error "TypeError: NoneType object is not subscriptable"
    | some c =>
      let tool_calls := ext.extract_tool_calls event_data.raw_message event_data
      Except.ok
        { type := some (some "ai")
          agent_id := some (some (pyLower a))
          display_name := some (some display_name)
          avatar := some (some avatar)
          content := some (some c)
          id := some (some ("ai_" ++ pyLower a ++ "_" ++
            toString (ext.pyHash (some (pyTake c 100))) ++ "_" ++ toString ts))
          tool_calls := if tool_calls.isEmpty then Option.none else some tool_calls }

/-- Lines 208-219: `_create_tool_message`. -/
def create_tool_message (ext : Externals) (ts : Nat) (event_data : Event)
    (content : Py) : Except String Message :=
  let tool_name := pyGet event_data.tool_name (some "Unknown Tool")
  let tool_display_name :=
    pyGet event_data.tool_display_name (some (ext.parse_tool_name tool_name))
  match content with
  | Option.none => Except.error "TypeError: NoneType object is not subscriptable"
  | some c =>
    Except.ok
      { type := some (some "tool")
        tool_name := some tool_name
        tool_display_name := some tool_display_name
        content := some content
        id := some (some ("tool_" ++ pyStr tool_name ++ "_" ++
          toString (ext.pyHash (some (pyTake c 100))) ++ "_" ++ toString ts)) }

/-- Lines 221-227: `_create_user_message` (`hash(None)` is legal in Python,
so a `None` content does not raise here). -/
def create_user_message (ext : Externals) (ts : Nat) (content : Py) :
    Except String Message :=
  Except.ok
    { type := some (some "user")
      content := some content
      id := some (some ("user_" ++ toString (ext.pyHash content) ++ "_" ++ toString ts)) }

/-- Lines 27-57: `process_cli_event`.  The display-name and avatar lookups
of lines 42-43 are total per the spec, so evaluating them for non-AI
branches has no observable effect and they are threaded where used. -/
def process_cli_event (ext : Externals) (ts : Nat) (event_data : Event) :
    Except String Message :=
  let message_type := pyGet event_data.message_type (some "")
  let agent_name := pyGet event_data.agent_name (some "Unknown")
  let content := pyGet event_data.content (some "")
  let display_name := ext.get_display_name agent_name
  let avatar := ext.get_avatar agent_name
  if message_type == some "ai" then
    create_ai_message ext ts agent_name display_name avatar content event_data
  else if message_type == some "tool" then
    create_tool_message ext ts event_data content
  else if message_type == some "user" then
    create_user_message ext ts content
  else
    create_ai_message ext ts agent_name display_name avatar content event_data

/-- The status record returned by `extract_agent_status`. -/
structure AgentStatus where
  active_agent : Py
  completed_agents : List String
  current_step : Nat
deriving DecidableEq, Repr

/-- Lines 238-243: the `for event in reversed(events)` loop with its
`break`; the argument is the already-reversed event list. -/
def find_active_agent : List Event → Py
  | [] => Option.none
  | e :: rest =>
    if pyGet e.type Option.none == some "message"
        && pyGet e.message_type Option.none == some "ai" then
      match pyGet e.agent_name Option.none with
      | some s => if !(s.data.isEmpty) && s != "Unknown" then some (pyLower s)
                  else find_active_agent rest
      | Option.none => find_active_agent rest
    else find_active_agent rest

/-- Lines 229-248: `extract_agent_status`. -/
def extract_agent_status (events : List Event) : AgentStatus :=
  { active_agent := find_active_agent events.reverse
    completed_agents := []
    current_step :=
      (events.filter (fun e => pyGet e.type Option.none == some "message")).length }

/-- Lines 250-275: `is_duplicate_message`. -/
def is_duplicate_message (new_message : Message)
    (existing_messages : List Message) : Bool :=
  let new_id := pyGet new_message.id Option.none
  if !(pyTruthy new_id) then false
  else if existing_messages.any (fun msg => pyGet msg.id Option.none == new_id) then
    true
  else
    let new_agent := pyGet new_message.agent_id Option.none
    let new_content := pyGet new_message.content (some "")
    existing_messages.any (fun msg =>
      pyGet msg.agent_id Option.none == new_agent
        && pyGet msg.type Option.none == pyGet new_message.type Option.none
        && pyGet msg.content Option.none == new_content)

/-- A concrete instantiation of the external collaborators, used to
evaluate the pipeline on concrete inputs. -/
def ext0 : Externals :=
  { get_display_name := fun a => pyStr a
    get_avatar := fun _ => "robot"
    parse_tool_name := fun t => pyStr t
    extract_tool_calls := fun _ _ => []
    pyHash := fun _ => 0 }

/-! ## Claim-side definitions and concrete instances -/

/-- Map each separator that the claim lists (and the space character) to an
underscore, leaving every other character unchanged. -/
def sepToUnderscore (c : Char) : Char :=
  if c == '-' || c == '.' || c == '/' || c == '_' || c == ' ' then '_' else c

/-- The normalization exactly as claim C5 states it: case folding plus
mapping the separators and all whitespace to underscore. -/
def claim_normalize_ws (s : String) : String :=
  String.mk ((pyLower s).data.map (fun c => if pyIsSpace c then '_' else sepToUnderscore c))

/-- The initial-access condition exactly as claim C5 states it. -/
def claim_is_initial_access_stated (s : String) : Bool :=
  pyIn "initial_access" (claim_normalize_ws s)

/-- The summary condition exactly as claim C5 states it. -/
def claim_is_summary_stated (s : String) : Bool :=
  pyIn "summary" (pyLower s)

/-- The amended normalization: strip edge whitespace, lowercase, then map the
separators and the space character (only) to underscore. -/
def claim_normalize (s : String) : String :=
  String.mk ((pyLower (pyStrip s)).data.map sepToUnderscore)

/-- The amended initial-access condition. -/
def claim_is_initial_access (s : String) : Bool :=
  pyIn "initial_access" (claim_normalize s)

/-- The amended summary condition (containment on the stripped, lowercased
name). -/
def claim_is_summary (s : String) : Bool :=
  pyIn "summary" (pyLower (pyStrip s))

/-- The qualifying condition exactly as claim C7 states it: an event of AI
type (message_type "ai") whose agent_name is non-empty and not "Unknown". -/
def claimed_qualifying (e : Event) : Bool :=
  pyGet e.message_type Option.none == some "ai"
    && pyTruthy (pyGet e.agent_name Option.none)
    && pyGet e.agent_name Option.none != some "Unknown"

/-- The active agent as claim C7 states it: the lowercased agent name of the
first qualifying event scanning from most recent to oldest, else None. -/
def claimed_active_agent (events : List Event) : Py :=
  match events.reverse.find? claimed_qualifying with
  | some e => some (pyLower (pyStr (pyGet e.agent_name Option.none)))
  | Option.none => Option.none

/-- The qualifying condition as amended: the event must additionally carry
the envelope field type = "message". -/
def amended_qualifying (e : Event) : Bool :=
  pyGet e.type Option.none == some "message"
    && pyGet e.message_type Option.none == some "ai"
    && pyTruthy (pyGet e.agent_name Option.none)
    && pyGet e.agent_name Option.none != some "Unknown"

/-- The active agent as amended. -/
def amended_active_agent (events : List Event) : Py :=
  match events.reverse.find? amended_qualifying with
  | some e => some (pyLower (pyStr (pyGet e.agent_name Option.none)))
  | Option.none => Option.none

def erase_id (m : Message) : Message := { m with id := Option.none }

def c2_event : Event :=
  { message_type := some (some "ai"), agent_name := some (some "initial_access"),
    content := some (some "hello") }

def c3_event : Event :=
  { message_type := some (some "ai"), agent_name := some (some "planner"),
    content := some (some "hi") }

def c6_event : Event :=
  { message_type := some (some "tool"), tool_name := some (some "nmap_scan"),
    content := some (some "raw nmap output") }

def c7_event : Event :=
  { message_type := some (some "ai"), agent_name := some (some "Bob") }

def c8_cand : Message :=
  { type := some (some "ai"), agent_id := some (some "x"), content := some (some "dup") }

def c8_existing : List Message :=
  [{ type := some (some "ai"), agent_id := some (some "x"),
     content := some (some "dup"), id := some (some "ai_q") }]

def c8w_cand : Message :=
  { type := some (some "ai"), agent_id := some (some "x"),
    content := some (some "dup"), id := some (some "id_B") }

def c8w_existing : List Message :=
  [{ type := some (some "ai"), agent_id := some (some "x"),
     content := some (some "dup"), id := some (some "id_A") }]

def c9_msg : Message := { id := some (some "m1"), content := some (some "c") }

def c10_cand : Message :=
  { type := some (some "ai"), agent_id := some (some "x"), content := some (some "dup") }

def c10_existing : List Message :=
  [{ type := some (some "ai"), agent_id := some (some "x"),
     content := some (some "dup"), id := some (some "ai_q") }]

deriving instance DecidableEq for Except

/-! ## Helper lemmas -/

theorem bool_eq_of_iff {a b : Bool} (h : a = true ↔ b = true) : a = b := by
  cases a <;> cases b <;> simp_all

theorem pyOr_some_empty (s : String) : pyOr (some s) "" = s := by
  obtain ⟨l⟩ := s
  cases l with
  | nil => rfl
  | cons c t => rfl

theorem infixCheck_iff (n h : List Char) : infixCheck n h = true ↔ n <:+: h := by
  induction h with
  | nil =>
    simp [infixCheck, List.isPrefixOf_iff_prefix, List.prefix_nil, List.infix_nil]
  | cons c t ih =>
    rw [infixCheck]
    simp [Bool.or_eq_true, List.isPrefixOf_iff_prefix, ih, List.infix_cons_iff]

theorem pyIn_iff (n h : String) : pyIn n h = true ↔ n.data <:+: h.data :=
  infixCheck_iff n.data h.data

theorem pyIn_mk (n : String) (l : List Char) :
    pyIn n (String.mk l) = infixCheck n.data l := rfl

theorem data_mk (l : List Char) : (String.mk l).data = l := rfl

theorem ia_template_heading :
    pyIn initial_access_required_heading (pyLower initial_access_safe_template) = true := by
  decide

theorem ia_template_banned :
    ∀ t ∈ initial_access_banned_terms,
      pyIn t (pyLower initial_access_safe_template) = false := by
  decide

theorem sum_template_heading :
    pyIn summary_required_heading (pyLower summary_safe_template) = true := by
  decide

theorem sum_template_banned :
    ∀ t ∈ summary_banned_terms, t ≠ "rce" →
      pyIn t (pyLower summary_safe_template) = false := by
  decide

theorem sanitize_ia_eq (s : String) :
    sanitize_initial_access_output (some s) =
      if !(pyIn initial_access_required_heading (pyLower s))
          || initial_access_banned_terms.any (fun t => pyIn t (pyLower s))
      then initial_access_safe_template else s := by
  simp only [sanitize_initial_access_output, pyOr_some_empty]
  cases hh : pyIn initial_access_required_heading (pyLower s) <;>
    cases hb : initial_access_banned_terms.any (fun t => pyIn t (pyLower s)) <;>
      simp [hh, hb]

theorem sepToUnderscore_eq_underscore {c : Char} (h : sepToUnderscore c = '_') :
    c = '-' ∨ c = '.' ∨ c = '/' ∨ c = '_' ∨ c = ' ' := by
  by_cases hc : (c == '-' || c == '.' || c == '/' || c == '_' || c == ' ') = true
  · simp only [Bool.or_eq_true, beq_iff_eq] at hc
    tauto
  · unfold sepToUnderscore at h
    rw [if_neg hc] at h
    exact Or.inr (Or.inr (Or.inr (Or.inl h)))

theorem replaceChar_sep {x : Char} (hx : sepToUnderscore x = '_') (c : Char) :
    sepToUnderscore (replaceChar x '_' c) = sepToUnderscore c := by
  unfold replaceChar
  by_cases h : (c == x) = true
  · rw [if_pos h]
    simp only [beq_iff_eq] at h
    subst h
    rw [hx]
    rfl
  · rw [if_neg h]

theorem map_sep_replace {x : Char} (hx : sepToUnderscore x = '_') (l : List Char) :
    (l.map (replaceChar x '_')).map sepToUnderscore = l.map sepToUnderscore := by
  rw [List.map_map]
  exact List.map_congr_left (fun c _ => replaceChar_sep hx c)

theorem map_sep_no_underscore :
    ∀ (p q : List Char), (∀ d ∈ q, d ≠ '_') → p.map sepToUnderscore = q → p = q := by
  intro p
  induction p with
  | nil =>
    intro q _ h
    exact h
  | cons c t ih =>
    intro q hq h
    cases q with
    | nil => simp at h
    | cons d qt =>
      simp only [List.map_cons, List.cons.injEq] at h
      obtain ⟨h1, h2⟩ := h
      have hd : d ≠ '_' := hq d (by simp)
      have hc : c = d := by
        by_cases hcc : (c == '-' || c == '.' || c == '/' || c == '_' || c == ' ') = true
        · exfalso
          apply hd
          rw [← h1]
          unfold sepToUnderscore
          rw [if_pos hcc]
        · rw [← h1]
          unfold sepToUnderscore
          rw [if_neg hcc]
      rw [hc, ih qt (fun d2 hd2 => hq d2 (by simp [hd2])) h2]

theorem token_decomp :
    ("initial_access".data : List Char) = "initial".data ++ '_' :: "access".data := by
  decide

theorem token_map_sep :
    ("initial_access".data : List Char).map sepToUnderscore = "initial_access".data := by
  decide

theorem token_infix_of_parts (x : Char)
    (hmid : (("initial".data ++ x :: "access".data) : List Char).map (replaceChar x '_') =
      "initial_access".data)
    (l₁ r : List Char) :
    "initial_access".data <:+:
      ((l₁ ++ ("initial".data ++ x :: ("access".data ++ r))).map (replaceChar x '_')) := by
  refine ⟨l₁.map (replaceChar x '_'), r.map (replaceChar x '_'), ?_⟩
  rw [← hmid, ← List.map_append, ← List.map_append]
  congr 1
  simp [List.append_assoc]

theorem token_infix_map_iff (l : List Char) :
    "initial_access".data <:+: l.map sepToUnderscore ↔
      ("initial_access".data <:+: l
        ∨ "initial_access".data <:+: l.map (replaceChar ' ' '_')
        ∨ "initial_access".data <:+: l.map (replaceChar '-' '_')
        ∨ "initial_access".data <:+: l.map (replaceChar '.' '_')
        ∨ "initial_access".data <:+: l.map (replaceChar '/' '_')) := by
  constructor
  · intro h
    obtain ⟨s, t, hst⟩ := h
    have h0 : l.map sepToUnderscore = s ++ ("initial".data ++ ('_' :: ("access".data ++ t))) := by
      rw [← hst, token_decomp]
      simp [List.append_assoc]
    obtain ⟨l₁, l₂, hl, hs1, h2⟩ := List.map_eq_append_iff.mp h0
    obtain ⟨m₁, l₃, hl2, hm1, h3⟩ := List.map_eq_append_iff.mp h2
    have hm1e : m₁ = "initial".data := map_sep_no_underscore m₁ _ (by decide) hm1
    cases l₃ with
    | nil => simp at h3
    | cons c m₂ =>
      simp only [List.map_cons, List.cons.injEq] at h3
      obtain ⟨hc, h4⟩ := h3
      obtain ⟨m₃, r, hl3, hm3, hr⟩ := List.map_eq_append_iff.mp h4
      have hm3e : m₃ = "access".data := map_sep_no_underscore m₃ _ (by decide) hm3
      subst hl
      subst hl2
      subst hl3
      subst hm1e
      subst hm3e
      rcases sepToUnderscore_eq_underscore hc with h5 | h5 | h5 | h5 | h5
      · subst h5
        refine Or.inr (Or.inr (Or.inl ?_))
        exact token_infix_of_parts '-' (by decide) l₁ r
      · subst h5
        refine Or.inr (Or.inr (Or.inr (Or.inl ?_)))
        exact token_infix_of_parts '.' (by decide) l₁ r
      · subst h5
        refine Or.inr (Or.inr (Or.inr (Or.inr ?_)))
        exact token_infix_of_parts '/' (by decide) l₁ r
      · subst h5
        refine Or.inl ?_
        refine ⟨l₁, r, ?_⟩
        rw [token_decomp]
        simp [List.append_assoc]
      · subst h5
        refine Or.inr (Or.inl ?_)
        exact token_infix_of_parts ' ' (by decide) l₁ r
  · rintro (h | h | h | h | h)
    · have h2 := h.map sepToUnderscore
      rw [token_map_sep] at h2
      exact h2
    · have h2 := h.map sepToUnderscore
      rw [token_map_sep, map_sep_replace (by decide)] at h2
      exact h2
    · have h2 := h.map sepToUnderscore
      rw [token_map_sep, map_sep_replace (by decide)] at h2
      exact h2
    · have h2 := h.map sepToUnderscore
      rw [token_map_sep, map_sep_replace (by decide)] at h2
      exact h2
    · have h2 := h.map sepToUnderscore
      rw [token_map_sep, map_sep_replace (by decide)] at h2
      exact h2

theorem ia_agent_eq_claim (s : String) :
    is_initial_access_agent (some s) = claim_is_initial_access s := by
  apply bool_eq_of_iff
  simp only [is_initial_access_agent, claim_is_initial_access, claim_normalize,
    pyOr_some_empty, pyReplaceChar, pyIn, data_mk, Bool.or_eq_true, beq_iff_eq,
    infixCheck_iff]
  have hl1 : pyLower (pyStrip s) = "initial_access" →
      "initial_access".data <:+: (pyLower (pyStrip s)).data := fun h => by
    rw [h]
  have hl2 : pyLower (pyStrip s) = "initial_access_agent" →
      "initial_access".data <:+: (pyLower (pyStrip s)).data := fun h => by
    rw [h]; decide
  have hl3 : pyLower (pyStrip s) = "initial_access\n" →
      "initial_access".data <:+: (pyLower (pyStrip s)).data := fun h => by
    rw [h]; decide
  rw [token_infix_map_iff]
  tauto

theorem summary_agent_eq_claim (s : String) :
    is_summary_agent (some s) = claim_is_summary s := by
  apply bool_eq_of_iff
  simp only [is_summary_agent, claim_is_summary, pyOr_some_empty, pyIn,
    Bool.or_eq_true, beq_iff_eq, infixCheck_iff]
  have hl : pyLower (pyStrip s) = "summary" →
      "summary".data <:+: (pyLower (pyStrip s)).data := fun h => by
    rw [h]
  tauto

theorem find_active_agent_eq (l : List Event) :
    find_active_agent l =
      match l.find? amended_qualifying with
      | some e => some (pyLower (pyStr (pyGet e.agent_name Option.none)))
      | Option.none => Option.none := by
  induction l with
  | nil => rfl
  | cons e rest ih =>
    rw [find_active_agent, List.find?_cons]
    cases h1 : (pyGet e.type Option.none == some "message"
        && pyGet e.message_type Option.none == some "ai") with
    | false =>
      have hq : amended_qualifying e = false := by
        simp only [amended_qualifying, h1, Bool.false_and]
      simp only [h1, Bool.false_eq_true, if_false, hq, ih]
    | true =>
      cases ha : pyGet e.agent_name Option.none with
      | none =>
        have hq : amended_qualifying e = false := by
          simp only [amended_qualifying, h1, Bool.true_and, ha]
          rfl
        simp only [h1, if_true, ha, hq, ih]
      | some s =>
        cases h3 : (!(s.data.isEmpty) && s != "Unknown") with
        | true =>
          have hq : amended_qualifying e = true := by
            simp only [amended_qualifying, h1, Bool.true_and, ha]
            exact h3
          simp only [h1, if_true, ha, h3, hq, pyStr]
        | false =>
          have hq : amended_qualifying e = false := by
            simp only [amended_qualifying, h1, Bool.true_and, ha]
            exact h3
          simp only [h1, if_true, ha, h3, Bool.false_eq_true, if_false, hq, ih]

/-! ## Claim theorems -/

/-- C1 counterexample: the claim fails for the Summary Sanitizer when the
fallback template is substituted — on input `""` the gate fails, the fixed
fallback template is returned, and that template contains the banned term
"rce" as a case-insensitive substring (inside the word "enforce"). -/
theorem spec2_C1_counterexample :
    sanitize_summary_output (some "") = summary_safe_template
    ∧ "rce" ∈ summary_banned_terms
    ∧ pyIn "rce" (pyLower (sanitize_summary_output (some ""))) = true := by
  refine ⟨by rfl, by decide, by decide⟩

/-- C1 amended: for every input, the Initial-Access Sanitizer output contains
its required heading case-insensitively and none of its banned terms; the
Summary Sanitizer output contains its required heading case-insensitively and
none of its banned terms other than "rce" (the fixed summary fallback template
contains "rce" inside the word "enforce", so that single term is exempted in
the fallback case). -/
theorem spec2_C1_amended (c : Py) :
    (pyIn initial_access_required_heading
        (pyLower (sanitize_initial_access_output c)) = true
      ∧ ∀ t ∈ initial_access_banned_terms,
          pyIn t (pyLower (sanitize_initial_access_output c)) = false)
    ∧ (pyIn summary_required_heading (pyLower (sanitize_summary_output c)) = true
      ∧ ∀ t ∈ summary_banned_terms, t ≠ "rce" →
          pyIn t (pyLower (sanitize_summary_output c)) = false) := by
  constructor
  · simp only [sanitize_initial_access_output]
    cases hh : pyIn initial_access_required_heading (pyLower (pyOr c "")) with
    | false => simpa using ⟨ia_template_heading, ia_template_banned⟩
    | true =>
      cases hb : initial_access_banned_terms.any
          (fun term => pyIn term (pyLower (pyOr c ""))) with
      | false =>
        refine ⟨by simp [hh, hb], fun t ht => ?_⟩
        have h2 := List.any_eq_false.mp hb t ht
        simpa [hh, hb] using h2
      | true => simpa [hh, hb] using ⟨ia_template_heading, ia_template_banned⟩
  · simp only [sanitize_summary_output]
    cases hh : pyIn summary_required_heading (pyLower (pyOr c "")) with
    | false => simpa using ⟨sum_template_heading, sum_template_banned⟩
    | true =>
      cases hb : summary_banned_terms.any
          (fun term => pyIn term (pyLower (pyOr c ""))) with
      | false =>
        refine ⟨by simp [hh, hb], fun t ht hne => ?_⟩
        have h2 := List.any_eq_false.mp hb t ht
        simpa [hh, hb] using h2
      | true => simpa [hh, hb] using ⟨sum_template_heading, sum_template_banned⟩

/-- C1 witness: a concrete application of the amended theorem. -/
theorem spec2_C1_witness :
    pyIn "cve" (pyLower (sanitize_summary_output (some "x"))) = false :=
  (spec2_C1_amended (some "x")).2.2 "cve" (by decide) (by decide)

/-- C2: for every AI event whose agent name classifies as the initial-access
role (with a string agent name and string content), the output content is the
fixed initial-access fallback template exactly when the content lacks the
required heading "initial access assessment (simulated)" (case-insensitively)
or contains a banned term, and is the input content unchanged otherwise. -/
theorem spec2_C2 (ext : Externals) (ts : Nat) (e : Event) (a s : String)
    (hmt : e.message_type = some (some "ai"))
    (ha : e.agent_name = some (some a))
    (hc : e.content = some (some s))
    (hia : is_initial_access_agent (some a) = true) :
    ∃ m : Message, process_cli_event ext ts e = Except.ok m ∧
      m.content = some (some (
        if !(pyIn initial_access_required_heading (pyLower s))
            || initial_access_banned_terms.any (fun t => pyIn t (pyLower s))
        then initial_access_safe_template else s)) := by
  have hrole : classify_role (some a) = AgentRole.initial_access_role := by
    unfold classify_role
    rw [hia]
    rfl
  simp only [process_cli_event, hmt, ha, hc, pyGet, Option.getD,
    beq_self_eq_true, if_true]
  simp only [create_ai_message, hrole]
  exact ⟨_, rfl, by rw [sanitize_ia_eq]⟩

/-- C2 witness: concrete application — content without the heading is
replaced by the fallback template. -/
theorem spec2_C2_witness :
    ∃ m : Message, process_cli_event ext0 0 c2_event = Except.ok m ∧
      m.content = some (some (
        if !(pyIn initial_access_required_heading (pyLower "hello"))
            || initial_access_banned_terms.any (fun t => pyIn t (pyLower "hello"))
        then initial_access_safe_template else "hello")) :=
  spec2_C2 ext0 0 c2_event "initial_access" "hello" rfl rfl rfl (by decide)

/-- C3 counterexample: `process_cli_event` is not a pure function of the
event record alone — the same event processed at wall-clock timestamps 0 and
1 yields different Message records (the `id` field embeds the timestamp). -/
theorem spec2_C3_counterexample :
    process_cli_event ext0 0 c3_event ≠ process_cli_event ext0 1 c3_event := by
  decide

/-- C3 amended: `process_cli_event` is deterministic as a function of its
input event and the construction timestamp, and every field except `id` is
independent of the timestamp: erasing `id` makes results at any two
timestamps equal. -/
theorem spec2_C3_amended (ext : Externals) (ts1 ts2 : Nat) (e : Event) :
    (process_cli_event ext ts1 e).map erase_id =
      (process_cli_event ext ts2 e).map erase_id := by
  have hai : ∀ (an : Py) (dn av : String) (c : Py),
      (create_ai_message ext ts1 an dn av c e).map erase_id =
        (create_ai_message ext ts2 an dn av c e).map erase_id := by
    intro an dn av c
    unfold create_ai_message
    cases an with
    | none => rfl
    | some a =>
      cases hcr : classify_role (some a) with
      | initial_access_role => rfl
      | summary_role => rfl
      | other_role =>
        simp only [hcr]
        cases c with
        | none => rfl
        | some cc => rfl
  have htool : ∀ c : Py,
      (create_tool_message ext ts1 e c).map erase_id =
        (create_tool_message ext ts2 e c).map erase_id := by
    intro c
    cases c with
    | none => rfl
    | some cc => rfl
  have huser : ∀ c : Py,
      (create_user_message ext ts1 c).map erase_id =
        (create_user_message ext ts2 c).map erase_id := fun _ => rfl
  unfold process_cli_event
  cases h1 : (pyGet e.message_type (some "") == some "ai") with
  | true => simp only [h1, if_true]; exact hai _ _ _ _
  | false =>
    simp only [h1, Bool.false_eq_true, if_false]
    cases h2 : (pyGet e.message_type (some "") == some "tool") with
    | true => simp only [h2, if_true]; exact htool _
    | false =>
      simp only [h2, Bool.false_eq_true, if_false]
      cases h3 : (pyGet e.message_type (some "") == some "user") with
      | true => simp only [h3, if_true]; exact huser _
      | false => simp only [h3, Bool.false_eq_true, if_false]; exact hai _ _ _ _

/-- C4 evaluation at the failing input: for the event
`{"message_type": "ai", "agent_name": None}` — agent_name explicitly present
with value None — the code raises `AttributeError` at `agent_name.lower()`
(line 76) instead of falling back to a safe default, for any externals and
timestamp. -/
theorem spec2_C4_code_bug (ext : Externals) (ts : Nat) :
    process_cli_event ext ts
        { message_type := some (some "ai"), agent_name := some Option.none } =
      Except.error "AttributeError: NoneType object has no attribute lower" := rfl

/-- C5 counterexample: the claim as stated fails twice.  The agent name
"initial\taccess" (tab separator) contains "initial_access" after
normalizing all whitespace to underscore, yet the code classifies it as the
other role, because the code replaces only the space character.  The agent
name "initial_access summary" contains "summary" case-insensitively, yet is
classified as the initial-access role, because the initial-access test runs
first. -/
theorem spec2_C5_counterexample :
    ¬ (classify_role (some "initial\taccess") = AgentRole.initial_access_role ↔
        claim_is_initial_access_stated "initial\taccess" = true)
    ∧ ¬ (classify_role (some "initial_access summary") = AgentRole.summary_role ↔
        claim_is_summary_stated "initial_access summary" = true) := by
  constructor <;> decide

/-- C5 amended: the code treats a name as the initial-access role exactly
when, after stripping edge whitespace, lowercasing, and mapping each of
'-', '.', '/', '_' and the space character (not other whitespace) to
underscore, it contains "initial_access"; as the summary role exactly when
the stripped lowercased name contains "summary" and it is not the
initial-access role (initial-access is checked first); and as the other
role exactly when neither condition holds. -/
theorem spec2_C5_amended (a : String) :
    (classify_role (some a) = AgentRole.initial_access_role ↔
      claim_is_initial_access a = true)
    ∧ (classify_role (some a) = AgentRole.summary_role ↔
        (claim_is_summary a = true ∧ claim_is_initial_access a = false))
    ∧ (classify_role (some a) = AgentRole.other_role ↔
        (claim_is_initial_access a = false ∧ claim_is_summary a = false)) := by
  have h1 := ia_agent_eq_claim a
  have h2 := summary_agent_eq_claim a
  unfold classify_role
  rw [h1, h2]
  cases hia : claim_is_initial_access a <;> cases hsum : claim_is_summary a <;>
    simp [hia, hsum]

/-- C6: for every event with message_type "tool" or "user" and content
present as a string, the output Message content is byte-identical to the
input content — tool and user content is never sanitized. -/
theorem spec2_C6 (ext : Externals) (ts : Nat) (e : Event) (s : String)
    (hmt : e.message_type = some (some "tool") ∨ e.message_type = some (some "user"))
    (hc : e.content = some (some s)) :
    ∃ m : Message, process_cli_event ext ts e = Except.ok m ∧
      m.content = some (some s) := by
  rcases hmt with h | h
  · simp only [process_cli_event, h, hc, pyGet, Option.getD]
    have h1 : ((some "tool" : Py) == some "ai") = false := by decide
    have h2 : ((some "tool" : Py) == some "tool") = true := by decide
    simp only [h1, h2, if_false, if_true, Bool.false_eq_true, create_tool_message]
    exact ⟨_, rfl, rfl⟩
  · simp only [process_cli_event, h, hc, pyGet, Option.getD]
    have h1 : ((some "user" : Py) == some "ai") = false := by decide
    have h2 : ((some "user" : Py) == some "tool") = false := by decide
    have h3 : ((some "user" : Py) == some "user") = true := by decide
    simp only [h1, h2, h3, if_false, if_true, Bool.false_eq_true, create_user_message]
    exact ⟨_, rfl, rfl⟩

/-- C6 witness: a concrete tool event passes its content through. -/
theorem spec2_C6_witness :
    ∃ m : Message, process_cli_event ext0 0 c6_event = Except.ok m ∧
      m.content = some (some "raw nmap output") :=
  spec2_C6 ext0 0 c6_event "raw nmap output" (Or.inl rfl) rfl

/-- C7 counterexample: an event with message_type "ai" and agent name "Bob"
but without the envelope field type = "message" is skipped by the code
(active_agent stays None), while the claim as stated would select it. -/
theorem spec2_C7_counterexample :
    (extract_agent_status [c7_event]).active_agent = Option.none
    ∧ claimed_active_agent [c7_event] = some "bob" := by
  refine ⟨rfl, by decide⟩

/-- C7 amended: active_agent is the lowercased agent name of the first
event, scanning from most recent to oldest, whose envelope type is
"message", whose message_type is "ai", and whose agent_name is a non-empty
string other than "Unknown"; the scan stops at the first match, and if no
event qualifies active_agent is None. -/
theorem spec2_C7_amended (events : List Event) :
    (extract_agent_status events).active_agent = amended_active_agent events := by
  unfold extract_agent_status amended_active_agent
  exact find_active_agent_eq events.reverse

/-- C8 counterexample: a candidate whose id is absent is never a duplicate,
even though the existing list holds a message with a different id and the
same type, agent_id and byte-identical content — the content check finds a
match, yet the function returns false. -/
theorem spec2_C8_counterexample :
    (∃ mm ∈ c8_existing,
        pyGet mm.id Option.none ≠ pyGet c8_cand.id Option.none
        ∧ pyGet mm.type Option.none = pyGet c8_cand.type Option.none
        ∧ pyGet mm.agent_id Option.none = pyGet c8_cand.agent_id Option.none
        ∧ pyGet mm.content Option.none = pyGet c8_cand.content Option.none)
    ∧ is_duplicate_message c8_cand c8_existing = false := by
  exact ⟨by decide, by decide⟩

/-- C8 amended: for every candidate with a truthy (present, non-None,
non-empty) id, is_duplicate_message is true exactly when the existing list
holds a message with the same id, or a message with the same agent_id, the
same type and byte-identical content (the candidate content defaulting to
"" when absent); it returns false only when neither check matches. -/
theorem spec2_C8_amended (cand : Message) (existing : List Message)
    (h : pyTruthy (pyGet cand.id Option.none) = true) :
    is_duplicate_message cand existing = true ↔
      ((∃ mm ∈ existing, pyGet mm.id Option.none = pyGet cand.id Option.none)
        ∨ (∃ mm ∈ existing,
            pyGet mm.agent_id Option.none = pyGet cand.agent_id Option.none
            ∧ pyGet mm.type Option.none = pyGet cand.type Option.none
            ∧ pyGet mm.content Option.none = pyGet cand.content (some ""))) := by
  unfold is_duplicate_message
  simp only [h, Bool.not_true, Bool.false_eq_true, if_false]
  cases hid : existing.any (fun msg => pyGet msg.id Option.none == pyGet cand.id Option.none) with
  | true =>
    simp only [if_true]
    rw [List.any_eq_true] at hid
    obtain ⟨mm, hmm, hbeq⟩ := hid
    simp only [beq_iff_eq] at hbeq
    simp only [true_iff]
    exact Or.inl ⟨mm, hmm, hbeq⟩
  | false =>
    simp only [Bool.false_eq_true, if_false]
    rw [List.any_eq_true]
    constructor
    · rintro ⟨mm, hmm, hb⟩
      simp only [Bool.and_eq_true, beq_iff_eq] at hb
      exact Or.inr ⟨mm, hmm, hb.1.1, hb.1.2, hb.2⟩
    · rintro (⟨mm, hmm, hb⟩ | ⟨mm, hmm, h1, h2, h3⟩)
      · exfalso
        have := List.any_eq_false.mp hid mm hmm
        simp only [beq_iff_eq] at this
        exact this hb
      · exact ⟨mm, hmm, by simp only [Bool.and_eq_true, beq_iff_eq]; exact ⟨⟨h1, h2⟩, h3⟩⟩

/-- C8 witness: two messages with different ids but equal type, agent_id
and content are duplicates. -/
theorem spec2_C8_witness : is_duplicate_message c8w_cand c8w_existing = true :=
  (spec2_C8_amended c8w_cand c8w_existing (by decide)).mpr (Or.inr (by decide))

/-- C9: is_duplicate is reflexive under identical id — for every message
with a present, non-empty string id, `is_duplicate_message m [m]` is true. -/
theorem spec2_C9 (m : Message) (s : String)
    (hid : m.id = some (some s)) (hs : s ≠ "") :
    is_duplicate_message m [m] = true := by
  have hts : pyTruthy (some s) = true := by
    obtain ⟨l⟩ := s
    cases l with
    | nil => exact absurd rfl hs
    | cons c t => rfl
  simp [is_duplicate_message, hid, pyGet, hts]

/-- C9 witness: concrete reflexivity instance. -/
theorem spec2_C9_witness : is_duplicate_message c9_msg [c9_msg] = true :=
  spec2_C9 c9_msg "m1" rfl (by decide)

/-- C10: a candidate whose id field is absent, None, or the empty string is
never reported as a duplicate, whatever the existing list contains. -/
theorem spec2_C10 (m : Message) (existing : List Message)
    (h : m.id = Option.none ∨ m.id = some Option.none ∨ m.id = some (some "")) :
    is_duplicate_message m existing = false := by
  rcases h with h | h | h <;> (unfold is_duplicate_message; rw [h]; rfl)

/-- C10 witness: the candidate matches an existing message by content, but
its id is absent, so it is not a duplicate. -/
theorem spec2_C10_witness : is_duplicate_message c10_cand c10_existing = false :=
  spec2_C10 c10_cand c10_existing (Or.inl rfl)
